import Mathlib

/-!
Shallow embedding of the Pulumi EKS program (src/config.py, src/hpa.py,
src/__main__.py).

The configuration layer models `pulumi.Config`: `config.get` returns an
optional string, `config.get_int` an optional integer, `config.get_bool` an
optional boolean and `config.get_object` (as used here) an optional list of
strings.  Every option in the source is resolved with Python's `or`
operator, whose semantics on these values is: the left operand is returned
when it is truthy (non-None, non-empty string, non-zero integer, True,
non-empty list), otherwise the right operand (the default) is returned.
-/

/-- A Pulumi configuration store: what the user supplied, per key. -/
structure PulumiConfig where
  getStr : String → Option String
  getInt : String → Option Int
  getBool : String → Option Bool
  getObject : String → Option (List String)

/-- Python `x or d` where `x` is an optional string (None and `''` are falsy). -/
def pyOrStr (v : Option String) (d : String) : String :=
  match v with
  | none => d
  | some s => if s = "" then d else s

/-- Python `x or d` where `x` is an optional integer (None and `0` are falsy). -/
def pyOrInt (v : Option Int) (d : Int) : Int :=
  match v with
  | none => d
  | some n => if n = 0 then d else n

/-- Python `x or d` where `x` is an optional boolean (None and `False` are falsy). -/
def pyOrBool (v : Option Bool) (d : Bool) : Bool :=
  match v with
  | none => d
  | some b => if b then b else d

/-- Python `x or d` where `x` is an optional list (None and `[]` are falsy). -/
def pyOrList (v : Option (List String)) (d : List String) : List String :=
  match v with
  | none => d
  | some l => if l = [] then d else l

/-- The store of a user who supplied no value for any option. -/
def emptyConfig : PulumiConfig :=
  ⟨fun _ => none, fun _ => none, fun _ => none, fun _ => none⟩

/-- A store supplying falsy values: `enable_hpa = False`, `node_min_count = 0`,
`vpc_name = ''`. -/
def falsyConfig : PulumiConfig where
  getStr := fun k => if k = "vpc_name" then some "" else none
  getInt := fun k => if k = "node_min_count" then some 0 else none
  getBool := fun k => if k = "enable_hpa" then some false else none
  getObject := fun _ => none

/-- The module-level settings computed by src/config.py. -/
structure EksConfig where
  vpc_name : String
  vpc_cidr : String
  availability_zones : List String
  private_subnet_1_cidr : String
  private_subnet_2_cidr : String
  public_subnet_1_cidr : String
  public_subnet_2_cidr : String
  cluster_name : String
  cluster_version : String
  cluster_role_name : String
  node_group_name : String
  node_desired_count : Int
  node_min_count : Int
  node_max_count : Int
  node_instance_type : String
  node_role_name : String
  aws_region : String
  common_tags : List (String × String)

/-- src/config.py: each module-level assignment `x = config.get(...) or default`. -/
def EksConfig.ofConfig (c : PulumiConfig) : EksConfig where
  vpc_name := pyOrStr (c.getStr "vpc_name") "eks-vpc"
  vpc_cidr := pyOrStr (c.getStr "vpc_cidr") "10.0.0.0/16"
  availability_zones :=
    pyOrList (c.getObject "availability_zones") ["us-east-1a", "us-east-1b"]
  private_subnet_1_cidr := pyOrStr (c.getStr "private_subnet_1_cidr") "10.0.1.0/24"
  private_subnet_2_cidr := pyOrStr (c.getStr "private_subnet_2_cidr") "10.0.2.0/24"
  public_subnet_1_cidr := pyOrStr (c.getStr "public_subnet_1_cidr") "10.0.101.0/24"
  public_subnet_2_cidr := pyOrStr (c.getStr "public_subnet_2_cidr") "10.0.102.0/24"
  cluster_name := pyOrStr (c.getStr "cluster_name") "eks-cluster"
  cluster_version := pyOrStr (c.getStr "cluster_version") "1.28"
  cluster_role_name := pyOrStr (c.getStr "cluster_role_name") "eks-cluster-role"
  node_group_name := pyOrStr (c.getStr "node_group_name") "eks-node-group"
  node_desired_count := pyOrInt (c.getInt "node_desired_count") 2
  node_min_count := pyOrInt (c.getInt "node_min_count") 1
  node_max_count := pyOrInt (c.getInt "node_max_count") 4
  node_instance_type := pyOrStr (c.getStr "node_instance_type") "t3.medium"
  node_role_name := pyOrStr (c.getStr "node_role_name") "eks-node-role"
  aws_region := pyOrStr (c.getStr "aws_region") "us-east-1"
  common_tags :=
    [("Environment", pyOrStr (c.getStr "environment") "dev"),
     ("Project", pyOrStr (c.getStr "project") "eks-project"),
     ("CreatedBy", "Pulumi")]

/-- The module-level settings computed at the top of src/hpa.py. -/
structure HpaSettings where
  enable_hpa : Bool
  hpa_min_replicas : Int
  hpa_max_replicas : Int
  hpa_cpu_threshold : Int
  hpa_memory_threshold : Int
  demo_namespace : String
  demo_app_name : String
  demo_app_image : String
  demo_app_replicas : Int
  demo_app_port : Int

/-- src/hpa.py lines 21-32: the HPA and demo-app options. -/
def HpaSettings.ofConfig (c : PulumiConfig) : HpaSettings where
  enable_hpa := pyOrBool (c.getBool "enable_hpa") true
  hpa_min_replicas := pyOrInt (c.getInt "hpa_min_replicas") 2
  hpa_max_replicas := pyOrInt (c.getInt "hpa_max_replicas") 10
  hpa_cpu_threshold := pyOrInt (c.getInt "hpa_cpu_threshold") 70
  hpa_memory_threshold := pyOrInt (c.getInt "hpa_memory_threshold") 80
  demo_namespace := pyOrStr (c.getStr "demo_namespace") "default"
  demo_app_name := pyOrStr (c.getStr "demo_app_name") "demo-app"
  demo_app_image := pyOrStr (c.getStr "demo_app_image") "nginx:latest"
  demo_app_replicas := pyOrInt (c.getInt "demo_app_replicas") 2
  demo_app_port := pyOrInt (c.getInt "demo_app_port") 80

/-!
Kubernetes objects built by src/hpa.py.  Pulumi auto-names physical objects
from the logical resource name (the metadata passed in the source carries no
explicit `name`); we abstract the engine's naming as a function
`an : String → String` from logical name to the resolved physical name, which
is what `resource.metadata['name']` yields once the output settles.
-/

/-- Resolved object metadata (`metadata` of a created Kubernetes resource). -/
structure ObjectMeta where
  name : String
  namespc : String
  labels : List (String × String)
deriving Repr, DecidableEq

/-- The demo deployment, with the fields src/hpa.py sets. -/
structure K8sDeployment where
  metadata : ObjectMeta
  replicas : Int
  selectorApp : String
  image : String
  containerPort : Int
deriving Repr, DecidableEq

/-- The demo service, with the fields src/hpa.py sets. -/
structure K8sService where
  metadata : ObjectMeta
  selectorApp : String
  port : Int
  targetPort : Int
  svcType : String
deriving Repr, DecidableEq

/-- A metric target (`target` of a Resource metric). -/
structure MetricTarget where
  targetType : String
  averageUtilization : Int
deriving Repr, DecidableEq

/-- One entry of the HPA `metrics` list. -/
structure MetricSpec where
  metricType : String
  resourceName : String
  target : MetricTarget
deriving Repr, DecidableEq

/-- The HPA `scale_target_ref`. -/
structure ScaleTargetRef where
  apiVersion : String
  kind : String
  name : String
deriving Repr, DecidableEq

/-- The HPA spec built by `create_hpa`. -/
structure HpaSpec where
  scale_target_ref : ScaleTargetRef
  min_replicas : Int
  max_replicas : Int
  metrics : List MetricSpec
deriving Repr, DecidableEq

/-- The HorizontalPodAutoscaler object, with its explicit ordering hint. -/
structure K8sHpa where
  metadata : ObjectMeta
  spec : HpaSpec
  depends_on : List String
deriving Repr, DecidableEq

/-- src/hpa.py `create_metrics_server`: installs the metrics-server chart only
when `enable_hpa`; we record the logical names of the resources it creates. -/
def create_metrics_server (s : HpaSettings) : List String :=
  if s.enable_hpa then ["metrics-server"] else []

/-- src/hpa.py `create_demo_deployment`. -/
def create_demo_deployment (an : String → String) (s : HpaSettings) : K8sDeployment where
  metadata :=
    { name := an s.demo_app_name
      namespc := s.demo_namespace
      labels := [("app", s.demo_app_name), ("ManagedBy", "Pulumi"), ("Component", "HPA")] }
  replicas := s.demo_app_replicas
  selectorApp := s.demo_app_name
  image := s.demo_app_image
  containerPort := s.demo_app_port

/-- src/hpa.py `create_demo_service`. -/
def create_demo_service (an : String → String) (s : HpaSettings) : K8sService where
  metadata :=
    { name := an (s.demo_app_name ++ "-service")
      namespc := s.demo_namespace
      labels := [("app", s.demo_app_name)] }
  selectorApp := s.demo_app_name
  port := 80
  targetPort := s.demo_app_port
  svcType := "LoadBalancer"

/-- src/hpa.py `create_hpa`: returns None when `enable_hpa` is false, otherwise
the HorizontalPodAutoscaler whose scale target is the deployment passed in. -/
def create_hpa (an : String → String) (s : HpaSettings) (deployment : K8sDeployment) :
    Option K8sHpa :=
  if !s.enable_hpa then none
  else some
    { metadata :=
        { name := an (s.demo_app_name ++ "-hpa")
          namespc := s.demo_namespace
          labels := [("app", s.demo_app_name)] }
      spec :=
        { scale_target_ref :=
            { apiVersion := "apps/v1", kind := "Deployment", name := deployment.metadata.name }
          min_replicas := s.hpa_min_replicas
          max_replicas := s.hpa_max_replicas
          metrics :=
            [{ metricType := "Resource", resourceName := "cpu",
               target := { targetType := "Utilization", averageUtilization := s.hpa_cpu_threshold } },
             { metricType := "Resource", resourceName := "memory",
               target := { targetType := "Utilization", averageUtilization := s.hpa_memory_threshold } }] }
      depends_on := [deployment.metadata.name] }

/-- A value of the mapping returned by `setup_hpa_infrastructure`. -/
inductive OutVal where
  | str (s : String)
  | int (n : Int)
deriving Repr, DecidableEq

/-- What one run of `setup_hpa_infrastructure` produced: the logical names of
the resources it created, and the mapping it returned. -/
structure SetupResult where
  created : List String
  outputs : List (String × OutVal)
deriving Repr, DecidableEq

/-- src/hpa.py `setup_hpa_infrastructure`.  `hpa.metadata` is accessed without
a None check; accessing an attribute on None raises in Python, which we embed
as `Except.error`. -/
def setup_hpa_infrastructure (an : String → String) (s : HpaSettings) :
    Except String SetupResult :=
  if !s.enable_hpa then .ok { created := [], outputs := [] }
  else
    let chart := create_metrics_server s
    let deployment := create_demo_deployment an s
    let service := create_demo_service an s
    match create_hpa an s deployment with
    | none => .error "AttributeError: NoneType object has no attribute metadata"
    | some hpa =>
      .ok
        { created :=
            chart ++ [s.demo_app_name, s.demo_app_name ++ "-service", s.demo_app_name ++ "-hpa"]
          outputs :=
            [("deployment_name", .str deployment.metadata.name),
             ("service_name", .str service.metadata.name),
             ("hpa_name", .str hpa.metadata.name),
             ("hpa_min_replicas", .int s.hpa_min_replicas),
             ("hpa_max_replicas", .int s.hpa_max_replicas),
             ("hpa_cpu_threshold", .int s.hpa_cpu_threshold),
             ("hpa_memory_threshold", .int s.hpa_memory_threshold)] }

/-!
Resource declarations of src/__main__.py, in program order.  A property that
reads another resource's output (`vpc.id`, `public_subnet_1.id`,
`eip_1.id`, `cluster_role.name`, `cluster_role.arn`, ...) is embedded as the
referenced resource's logical name; `refsOf` recovers the set of references a
declaration's configuration reads, and `Decl.depends_on` carries the explicit
ordering hints (`pulumi.ResourceOptions(depends_on=...)`).
-/

/-- Target of one route of a route table: `gateway_id` or `nat_gateway_id`. -/
inductive RouteTarget where
  | gateway (ref : String)
  | natGateway (ref : String)
deriving Repr, DecidableEq

/-- One entry of a route table's `routes` list. -/
structure Route where
  cidr_block : String
  target : RouteTarget
deriving Repr, DecidableEq

/-- Kind-specific configuration of one declaration. -/
inductive ResourceProps where
  | vpc (cidr_block : String)
  | internetGateway (vpcRef : String)
  | subnet (vpcRef cidr_block availability_zone : String)
      (map_public_ip_on_launch : Bool) (subnetType : String)
  | eip
  | natGateway (subnetRef allocationRef : String)
  | routeTable (vpcRef : String) (routes : List Route)
  | routeTableAssociation (subnetRef routeTableRef : String)
  | iamRole (assumeService : String)
  | rolePolicyAttachment (roleRef policyArn : String)
  | securityGroup (vpcRef : String) (ingressSgRefs : List String)
  | eksCluster (version roleRef : String) (subnetRefs sgRefs : List String)
  | nodeGroup (clusterRef roleRef : String) (subnetRefs : List String)
      (desired_size max_size min_size : Int) (instanceType : String)
  | helmChart (chart : String)
  | k8sDeployment
  | k8sService
  | k8sHpa (deploymentRef : String)
deriving Repr, DecidableEq

/-- One resource declaration: logical name, configuration, explicit hints. -/
structure Decl where
  name : String
  props : ResourceProps
  depends_on : List String := []
deriving Repr, DecidableEq

/-- The other resources whose outputs a declaration's configuration reads. -/
def refsOf : ResourceProps → List String
  | .vpc _ => []
  | .internetGateway v => [v]
  | .subnet v _ _ _ _ => [v]
  | .eip => []
  | .natGateway s a => [s, a]
  | .routeTable v routes =>
    v :: routes.map (fun r => match r.target with
      | .gateway g => g
      | .natGateway n => n)
  | .routeTableAssociation s rt => [s, rt]
  | .iamRole _ => []
  | .rolePolicyAttachment r _ => [r]
  | .securityGroup v sgs => v :: sgs
  | .eksCluster _ role subnets sgs => role :: (subnets ++ sgs)
  | .nodeGroup cl role subnets _ _ _ _ => cl :: role :: subnets
  | .helmChart _ => []
  | .k8sDeployment => []
  | .k8sService => []
  | .k8sHpa d => [d]

/-- All dependency edges out of a declaration: property references plus
explicit `depends_on` ordering hints. -/
def depsOf (d : Decl) : List String :=
  refsOf d.props ++ d.depends_on

/-- The declarations of src/__main__.py, in program order. -/
def mainDecls (cfg : EksConfig) : List Decl :=
  [⟨cfg.vpc_name, .vpc cfg.vpc_cidr, []⟩,
   ⟨"eks-igw", .internetGateway cfg.vpc_name, []⟩,
   ⟨"eks-public-subnet-1",
     .subnet cfg.vpc_name cfg.public_subnet_1_cidr
       (cfg.availability_zones.getD 0 "") true "Public", []⟩,
   ⟨"eks-public-subnet-2",
     .subnet cfg.vpc_name cfg.public_subnet_2_cidr
       (cfg.availability_zones.getD 1 "") true "Public", []⟩,
   ⟨"eks-private-subnet-1",
     .subnet cfg.vpc_name cfg.private_subnet_1_cidr
       (cfg.availability_zones.getD 0 "") false "Private", []⟩,
   ⟨"eks-private-subnet-2",
     .subnet cfg.vpc_name cfg.private_subnet_2_cidr
       (cfg.availability_zones.getD 1 "") false "Private", []⟩,
   ⟨"eks-eip-1", .eip, []⟩,
   ⟨"eks-eip-2", .eip, []⟩,
   ⟨"eks-nat-gateway-1", .natGateway "eks-public-subnet-1" "eks-eip-1", ["eks-igw"]⟩,
   ⟨"eks-nat-gateway-2", .natGateway "eks-public-subnet-2" "eks-eip-2", ["eks-igw"]⟩,
   ⟨"eks-public-rt",
     .routeTable cfg.vpc_name [⟨"0.0.0.0/0", .gateway "eks-igw"⟩], []⟩,
   ⟨"eks-public-rta-1", .routeTableAssociation "eks-public-subnet-1" "eks-public-rt", []⟩,
   ⟨"eks-public-rta-2", .routeTableAssociation "eks-public-subnet-2" "eks-public-rt", []⟩,
   ⟨"eks-private-rt-1",
     .routeTable cfg.vpc_name [⟨"0.0.0.0/0", .natGateway "eks-nat-gateway-1"⟩], []⟩,
   ⟨"eks-private-rt-2",
     .routeTable cfg.vpc_name [⟨"0.0.0.0/0", .natGateway "eks-nat-gateway-2"⟩], []⟩,
   ⟨"eks-private-rta-1", .routeTableAssociation "eks-private-subnet-1" "eks-private-rt-1", []⟩,
   ⟨"eks-private-rta-2", .routeTableAssociation "eks-private-subnet-2" "eks-private-rt-2", []⟩,
   ⟨cfg.cluster_role_name, .iamRole "eks.amazonaws.com", []⟩,
   ⟨"eks-cluster-policy",
     .rolePolicyAttachment cfg.cluster_role_name
       "arn:aws:iam::aws:policy/AmazonEKSClusterPolicy", []⟩,
   ⟨"eks-cluster-vpc-policy",
     .rolePolicyAttachment cfg.cluster_role_name
       "arn:aws:iam::aws:policy/AmazonEKSVPCResourceController", []⟩,
   ⟨cfg.node_role_name, .iamRole "ec2.amazonaws.com", []⟩,
   ⟨"eks-node-policy",
     .rolePolicyAttachment cfg.node_role_name
       "arn:aws:iam::aws:policy/AmazonEKSWorkerNodePolicy", []⟩,
   ⟨"eks-cni-policy",
     .rolePolicyAttachment cfg.node_role_name
       "arn:aws:iam::aws:policy/AmazonEKS_CNI_Policy", []⟩,
   ⟨"eks-registry-policy",
     .rolePolicyAttachment cfg.node_role_name
       "arn:aws:iam::aws:policy/AmazonEC2ContainerRegistryReadOnly", []⟩,
   ⟨"eks-cluster-sg", .securityGroup cfg.vpc_name [], []⟩,
   ⟨"eks-node-sg", .securityGroup cfg.vpc_name ["eks-cluster-sg", "eks-cluster-sg"], []⟩,
   ⟨cfg.cluster_name,
     .eksCluster cfg.cluster_version cfg.cluster_role_name
       ["eks-public-subnet-1", "eks-public-subnet-2",
        "eks-private-subnet-1", "eks-private-subnet-2"]
       ["eks-cluster-sg"], []⟩,
   ⟨cfg.node_group_name,
     .nodeGroup cfg.cluster_name cfg.node_role_name
       ["eks-private-subnet-1", "eks-private-subnet-2"]
       cfg.node_desired_count cfg.node_max_count cfg.node_min_count
       cfg.node_instance_type, []⟩]

/-- The declarations made inside `setup_hpa_infrastructure` (src/hpa.py), in
call order, when the autoscaling demo is enabled: the metrics-server chart,
the demo deployment, its service (which references the deployment only by
label strings, not by output), and the HPA, whose spec reads
`deployment.metadata` and which additionally carries the explicit
`depends_on=[deployment]` hint. -/
def hpaDecls (s : HpaSettings) : List Decl :=
  [⟨"metrics-server", .helmChart "metrics-server", []⟩,
   ⟨s.demo_app_name, .k8sDeployment, []⟩,
   ⟨s.demo_app_name ++ "-service", .k8sService, []⟩,
   ⟨s.demo_app_name ++ "-hpa", .k8sHpa s.demo_app_name, [s.demo_app_name]⟩]

/-- A reference to a created resource's provider-reported attribute. -/
structure AttrRef where
  resource : String
  attr : String
deriving Repr, DecidableEq

/-- The `pulumi.export` calls at the bottom of src/__main__.py, in order. -/
def mainExports (cfg : EksConfig) : List (String × AttrRef) :=
  [("vpc_id", ⟨cfg.vpc_name, "id"⟩),
   ("vpc_cidr", ⟨cfg.vpc_name, "cidr_block"⟩),
   ("cluster_name", ⟨cfg.cluster_name, "name"⟩),
   ("cluster_endpoint", ⟨cfg.cluster_name, "endpoint"⟩),
   ("cluster_version", ⟨cfg.cluster_name, "version"⟩),
   ("cluster_arn", ⟨cfg.cluster_name, "arn"⟩),
   ("node_group_id", ⟨cfg.node_group_name, "id"⟩),
   ("public_subnet_1_id", ⟨"eks-public-subnet-1", "id"⟩),
   ("public_subnet_2_id", ⟨"eks-public-subnet-2", "id"⟩),
   ("private_subnet_1_id", ⟨"eks-private-subnet-1", "id"⟩),
   ("private_subnet_2_id", ⟨"eks-private-subnet-2", "id"⟩)]

/-- Resolve every export against a provider attribute valuation `v`
(resource logical name and attribute to reported value). -/
def resolveExports (v : String → String → String)
    (es : List (String × AttrRef)) : List (String × String) :=
  es.map (fun kv => (kv.1, v kv.2.resource kv.2.attr))

/-!
Dependency-graph machinery.  `wellOrdered` checks that every dependency of
every declaration names a resource declared strictly earlier in program
order.  `CycleIn` is the structural notion of a reference cycle: a nonempty
set of nodes each of which depends on another node of the set.  `topoSort`
is the graph build the spec ascribes to the provisioning engine.
-/

/-- Boolean membership of a string in a list. -/
def memb (x : String) : List String → Bool
  | [] => false
  | y :: ys => x == y || memb x ys

/-- Every dependency of every declaration was declared strictly earlier:
`seen` accumulates the names already declared. -/
def wellOrderedAux : List String → List Decl → Bool
  | _, [] => true
  | seen, d :: rest =>
    (depsOf d).all (fun r => memb r seen) && wellOrderedAux (d.name :: seen) rest

/-- Every dependency points to an earlier declaration of the list. -/
def wellOrdered (ds : List Decl) : Bool :=
  wellOrderedAux [] ds

/-- The dependency edges of a declaration set: `edgeIn ds n m` holds when a
declaration named `n` depends (by property reference or explicit hint) on the
resource named `m`. -/
def edgeIn (ds : List Decl) (n m : String) : Prop :=
  ∃ d ∈ ds, d.name = n ∧ m ∈ depsOf d

/-- A reference cycle among the declarations: a nonempty list of names each
of which has a dependency edge to another member of the list. -/
def CycleIn (ds : List Decl) (cyc : List String) : Prop :=
  cyc ≠ [] ∧ ∀ n ∈ cyc, ∃ m ∈ cyc, edgeIn ds n m

/-!
Modelled from the spec: the provisioning engine's graph build (dependency
resolution and cycle detection) is not code of this repository — the spec
describes it as "run topological sort (e.g., Kahn's algorithm); if any node
remains unvisited after all in-degree-zero nodes are drained, fail with
`CyclicDependencyError`, reporting the offending cycle's node names", and
"graph build fails ... and applies nothing".  We model it over a node list
and an edge list `(a, b)` read as "a depends on b".
-/

/-- A node is ready to drain when none of its dependencies is still
unprocessed. -/
def ready (remaining : List String) (edges : List (String × String)) (n : String) : Bool :=
  edges.all (fun e => !(e.1 == n && memb e.2 remaining))

/-- One drain round: keep exactly the nodes that are not yet ready. -/
def topoStep (remaining : List String) (edges : List (String × String)) : List String :=
  remaining.filter (fun n => !(ready remaining edges n))

/-- Outcome of the graph build, modelled from the spec. -/
inductive BuildOutcome where
  | ok
  | cyclicDependencyError (offending : List String)
deriving Repr, DecidableEq

/-- Drain in-degree-zero nodes round by round; when a round makes no
progress while nodes remain, every remaining node is stuck on a cycle and the
build fails, reporting the remaining node names; nothing is ever applied on
failure. -/
def topoDrain : Nat → List String → List (String × String) → BuildOutcome
  | 0, remaining, _ =>
    if remaining.isEmpty then .ok else .cyclicDependencyError remaining
  | fuel + 1, remaining, edges =>
    if remaining.isEmpty then .ok
    else if (topoStep remaining edges).length = remaining.length then
      .cyclicDependencyError (topoStep remaining edges)
    else topoDrain fuel (topoStep remaining edges) edges

/-- The spec's graph build: Kahn-style topological sort with cycle
detection. -/
def topoSort (nodes : List String) (edges : List (String × String)) : BuildOutcome :=
  topoDrain nodes.length nodes edges

/-- A cycle among the nodes of an edge list, as for `CycleIn` but over raw
edges: every member of `cyc` depends on some member of `cyc`. -/
def EdgeCycle (edges : List (String × String)) (cyc : List String) : Prop :=
  cyc ≠ [] ∧ ∀ n ∈ cyc, ∃ m ∈ cyc, (n, m) ∈ edges

/-- Once the build reports a cycle, the engine applies no resource change:
changes are applied only on a successful build. -/
def appliedChanges (o : BuildOutcome) (plan : List String) : List String :=
  match o with
  | .ok => plan
  | .cyclicDependencyError _ => []

/-!
Classifiers over declarations, used to state the concrete network scenario.
-/

/-- The declaration is a subnet tagged with the given `Type` tag. -/
def isSubnetOfType (t : String) (d : Decl) : Bool :=
  match d.props with
  | .subnet _ _ _ _ ty => ty == t
  | _ => false

/-- The declaration is a NAT gateway. -/
def isNatGateway (d : Decl) : Bool :=
  match d.props with
  | .natGateway _ _ => true
  | _ => false

/-- The declaration is a route table with a route through a NAT gateway,
i.e. one of the private route tables. -/
def isNatRouteTable (d : Decl) : Bool :=
  match d.props with
  | .routeTable _ routes =>
    routes.any (fun r =>
      match r.target with
      | .natGateway _ => true
      | .gateway _ => false)
  | _ => false

/-!
Concrete instances used to evaluate the theorems on closed inputs.
-/

/-- src/config.py evaluated with no user-supplied values. -/
def defaultEksConfig : EksConfig := EksConfig.ofConfig emptyConfig

/-- src/hpa.py settings evaluated with no user-supplied values. -/
def hpaDefaultSettings : HpaSettings := HpaSettings.ofConfig emptyConfig

/-- `hpaDefaultSettings` with the flag forced off, exercising the
early-return branch of `setup_hpa_infrastructure`. -/
def disabledHpaSettings : HpaSettings :=
  { hpaDefaultSettings with enable_hpa := false }

/-- The demo deployment at default settings, under the identity namer. -/
def demoDeployment0 : K8sDeployment := create_demo_deployment id hpaDefaultSettings

/-- The HorizontalPodAutoscaler `create_hpa` builds at default settings. -/
def demoHpa0 : K8sHpa where
  metadata := ⟨"demo-app-hpa", "default", [("app", "demo-app")]⟩
  spec :=
    { scale_target_ref := ⟨"apps/v1", "Deployment", "demo-app"⟩
      min_replicas := 2
      max_replicas := 10
      metrics :=
        [⟨"Resource", "cpu", ⟨"Utilization", 70⟩⟩,
         ⟨"Resource", "memory", ⟨"Utilization", 80⟩⟩] }
  depends_on := ["demo-app"]

/-!
Helper lemmas.
-/

/-- `memb` agrees with list membership. -/
theorem memb_eq_true_iff (x : String) (l : List String) : memb x l = true ↔ x ∈ l := by
  induction l with
  | nil => simp [memb]
  | cons y ys ih => simp [memb, ih, List.mem_cons]

/-- `x or True` is `True` for every optional boolean `x`: the left operand is
returned exactly when it is truthy, i.e. `True`. -/
theorem pyOrBool_true (v : Option Bool) : pyOrBool v true = true := by
  cases v with
  | none => rfl
  | some b => cases b <;> rfl

/-- `x or d` never evaluates to `0` when the default is nonzero. -/
theorem pyOrInt_ne_zero (v : Option Int) (d : Int) (hd : d ≠ 0) : pyOrInt v d ≠ 0 := by
  cases v with
  | none => exact hd
  | some n =>
    by_cases hn : n = 0
    · simp [pyOrInt, hn, hd]
    · simp [pyOrInt, hn]

/-- Evaluation of `setup_hpa_infrastructure` on the enabled path. -/
theorem setup_enabled_eq (an : String → String) (s : HpaSettings)
    (h : s.enable_hpa = true) :
    setup_hpa_infrastructure an s =
      .ok
        { created :=
            ["metrics-server", s.demo_app_name,
             s.demo_app_name ++ "-service", s.demo_app_name ++ "-hpa"]
          outputs :=
            [("deployment_name", .str (an s.demo_app_name)),
             ("service_name", .str (an (s.demo_app_name ++ "-service"))),
             ("hpa_name", .str (an (s.demo_app_name ++ "-hpa"))),
             ("hpa_min_replicas", .int s.hpa_min_replicas),
             ("hpa_max_replicas", .int s.hpa_max_replicas),
             ("hpa_cpu_threshold", .int s.hpa_cpu_threshold),
             ("hpa_memory_threshold", .int s.hpa_memory_threshold)] } := by
  simp [setup_hpa_infrastructure, create_metrics_server, create_demo_deployment,
    create_demo_service, create_hpa, h]

/-- If every dependency of every declaration was declared strictly earlier
(or was already `seen`), the declared names are distinct, and no member of a
candidate cycle is among `seen`, then no reference cycle exists among the
declarations. -/
theorem no_cycle_of_wellOrderedAux :
    ∀ (ds : List Decl) (seen : List String) (cyc : List String),
      wellOrderedAux seen ds = true →
      (ds.map Decl.name).Nodup →
      cyc ≠ [] →
      (∀ n ∈ cyc, n ∉ seen) →
      (∀ n ∈ cyc, ∃ d ∈ ds, d.name = n ∧ ∃ m ∈ cyc, m ∈ depsOf d) →
      False := by
  intro ds
  induction ds with
  | nil =>
    intro seen cyc _ _ hne _ hedge
    obtain ⟨n, hn⟩ := List.exists_mem_of_ne_nil cyc hne
    obtain ⟨d, hd, _⟩ := hedge n hn
    exact absurd hd (List.not_mem_nil d)
  | cons d rest ih =>
    intro seen cyc hwo hnd hne hseen hedge
    rw [wellOrderedAux, Bool.and_eq_true] at hwo
    obtain ⟨hall, hrest⟩ := hwo
    rw [List.map_cons, List.nodup_cons] at hnd
    obtain ⟨hdname, hndrest⟩ := hnd
    by_cases hd : d.name ∈ cyc
    · obtain ⟨d2, hd2mem, hd2name, m, hmcyc, hmdep⟩ := hedge d.name hd
      rcases List.mem_cons.1 hd2mem with heq | hd2rest
      · subst heq
        have hm : memb m seen = true := by
          have := List.all_eq_true.1 hall m hmdep
          simpa using this
        exact hseen m hmcyc ((memb_eq_true_iff m seen).1 hm)
      · exact hdname (hd2name ▸ List.mem_map_of_mem Decl.name hd2rest)
    · refine ih (d.name :: seen) cyc hrest hndrest hne ?_ ?_
      · intro n hn hmem
        rcases List.mem_cons.1 hmem with rfl | h2
        · exact hd hn
        · exact hseen n hn h2
      · intro n hn
        obtain ⟨d2, hd2mem, hd2name, hm⟩ := hedge n hn
        rcases List.mem_cons.1 hd2mem with heq | hd2rest
        · exact absurd (heq ▸ hd2name ▸ hn) hd
        · exact ⟨d2, hd2rest, hd2name, hm⟩

/-- A node with a still-unprocessed dependency survives the drain round. -/
theorem cycle_subset_topoStep (remaining : List String)
    (edges : List (String × String)) (cyc : List String)
    (hsub : ∀ n ∈ cyc, n ∈ remaining)
    (hcyc : ∀ n ∈ cyc, ∃ m ∈ cyc, (n, m) ∈ edges) :
    ∀ n ∈ cyc, n ∈ topoStep remaining edges := by
  intro n hn
  obtain ⟨m, hm, hedge⟩ := hcyc n hn
  refine List.mem_filter.2 ⟨hsub n hn, ?_⟩
  have hready : ready remaining edges n = false := by
    rw [ready]
    apply List.all_eq_false.2
    refine ⟨(n, m), hedge, ?_⟩
    simp [memb_eq_true_iff, hsub m hm]
  simp [hready]

/-- With an unbreakable cycle inside `remaining`, the drain never empties it
and must report a `CyclicDependencyError`. -/
theorem topoDrain_cyclic (edges : List (String × String)) (cyc : List String)
    (hne : cyc ≠ []) (hcyc : ∀ n ∈ cyc, ∃ m ∈ cyc, (n, m) ∈ edges) :
    ∀ (fuel : Nat) (remaining : List String), (∀ n ∈ cyc, n ∈ remaining) →
      ∃ off, topoDrain fuel remaining edges = .cyclicDependencyError off := by
  intro fuel
  induction fuel with
  | zero =>
    intro remaining hsub
    obtain ⟨n, hn⟩ := List.exists_mem_of_ne_nil cyc hne
    have : remaining.isEmpty = false :=
      List.isEmpty_eq_false_iff_exists_mem.2 ⟨n, hsub n hn⟩
    exact ⟨remaining, by simp [topoDrain, this]⟩
  | succ k ih =>
    intro remaining hsub
    obtain ⟨n, hn⟩ := List.exists_mem_of_ne_nil cyc hne
    have hre : remaining.isEmpty = false :=
      List.isEmpty_eq_false_iff_exists_mem.2 ⟨n, hsub n hn⟩
    by_cases hlen : (topoStep remaining edges).length = remaining.length
    · exact ⟨topoStep remaining edges, by simp [topoDrain, hre, hlen]⟩
    · obtain ⟨off, hoff⟩ :=
        ih (topoStep remaining edges) (cycle_subset_topoStep remaining edges cyc hsub hcyc)
      exact ⟨off, by simp [topoDrain, hre, hlen, hoff]⟩

/-!
Claim theorems.
-/

/-- C2: for every recognized configuration option, if the user supplies no
value for that option then the program uses the stated default. -/
theorem absent_option_falls_back_to_default (c : PulumiConfig) :
    (c.getStr "vpc_name" = none → (EksConfig.ofConfig c).vpc_name = "eks-vpc") ∧
    (c.getStr "vpc_cidr" = none → (EksConfig.ofConfig c).vpc_cidr = "10.0.0.0/16") ∧
    (c.getObject "availability_zones" = none →
      (EksConfig.ofConfig c).availability_zones = ["us-east-1a", "us-east-1b"]) ∧
    (c.getStr "private_subnet_1_cidr" = none →
      (EksConfig.ofConfig c).private_subnet_1_cidr = "10.0.1.0/24") ∧
    (c.getStr "private_subnet_2_cidr" = none →
      (EksConfig.ofConfig c).private_subnet_2_cidr = "10.0.2.0/24") ∧
    (c.getStr "public_subnet_1_cidr" = none →
      (EksConfig.ofConfig c).public_subnet_1_cidr = "10.0.101.0/24") ∧
    (c.getStr "public_subnet_2_cidr" = none →
      (EksConfig.ofConfig c).public_subnet_2_cidr = "10.0.102.0/24") ∧
    (c.getStr "cluster_name" = none → (EksConfig.ofConfig c).cluster_name = "eks-cluster") ∧
    (c.getStr "cluster_version" = none → (EksConfig.ofConfig c).cluster_version = "1.28") ∧
    (c.getStr "cluster_role_name" = none →
      (EksConfig.ofConfig c).cluster_role_name = "eks-cluster-role") ∧
    (c.getStr "node_group_name" = none →
      (EksConfig.ofConfig c).node_group_name = "eks-node-group") ∧
    (c.getInt "node_desired_count" = none → (EksConfig.ofConfig c).node_desired_count = 2) ∧
    (c.getInt "node_min_count" = none → (EksConfig.ofConfig c).node_min_count = 1) ∧
    (c.getInt "node_max_count" = none → (EksConfig.ofConfig c).node_max_count = 4) ∧
    (c.getStr "node_instance_type" = none →
      (EksConfig.ofConfig c).node_instance_type = "t3.medium") ∧
    (c.getStr "node_role_name" = none →
      (EksConfig.ofConfig c).node_role_name = "eks-node-role") ∧
    (c.getStr "aws_region" = none → (EksConfig.ofConfig c).aws_region = "us-east-1") ∧
    (c.getStr "environment" = none → c.getStr "project" = none →
      (EksConfig.ofConfig c).common_tags =
        [("Environment", "dev"), ("Project", "eks-project"), ("CreatedBy", "Pulumi")]) ∧
    (c.getBool "enable_hpa" = none → (HpaSettings.ofConfig c).enable_hpa = true) ∧
    (c.getInt "hpa_min_replicas" = none → (HpaSettings.ofConfig c).hpa_min_replicas = 2) ∧
    (c.getInt "hpa_max_replicas" = none → (HpaSettings.ofConfig c).hpa_max_replicas = 10) ∧
    (c.getInt "hpa_cpu_threshold" = none → (HpaSettings.ofConfig c).hpa_cpu_threshold = 70) ∧
    (c.getInt "hpa_memory_threshold" = none →
      (HpaSettings.ofConfig c).hpa_memory_threshold = 80) ∧
    (c.getStr "demo_namespace" = none → (HpaSettings.ofConfig c).demo_namespace = "default") ∧
    (c.getStr "demo_app_name" = none → (HpaSettings.ofConfig c).demo_app_name = "demo-app") ∧
    (c.getStr "demo_app_image" = none →
      (HpaSettings.ofConfig c).demo_app_image = "nginx:latest") ∧
    (c.getInt "demo_app_replicas" = none → (HpaSettings.ofConfig c).demo_app_replicas = 2) ∧
    (c.getInt "demo_app_port" = none → (HpaSettings.ofConfig c).demo_app_port = 80) := by
  refine ⟨?_, ?_, ?_, ?_, ?_, ?_, ?_, ?_, ?_, ?_, ?_, ?_, ?_, ?_, ?_, ?_, ?_, ?_, ?_, ?_,
    ?_, ?_, ?_, ?_, ?_, ?_, ?_, ?_⟩ <;>
    intros <;>
    simp_all [EksConfig.ofConfig, HpaSettings.ofConfig, pyOrStr, pyOrInt, pyOrBool, pyOrList]

/-- Witness for C2: the user who supplies nothing gets every stated default. -/
theorem absent_option_falls_back_to_default_witness :
    (EksConfig.ofConfig emptyConfig).vpc_name = "eks-vpc" ∧
    (EksConfig.ofConfig emptyConfig).vpc_cidr = "10.0.0.0/16" ∧
    (EksConfig.ofConfig emptyConfig).availability_zones = ["us-east-1a", "us-east-1b"] ∧
    (EksConfig.ofConfig emptyConfig).private_subnet_1_cidr = "10.0.1.0/24" ∧
    (EksConfig.ofConfig emptyConfig).private_subnet_2_cidr = "10.0.2.0/24" ∧
    (EksConfig.ofConfig emptyConfig).public_subnet_1_cidr = "10.0.101.0/24" ∧
    (EksConfig.ofConfig emptyConfig).public_subnet_2_cidr = "10.0.102.0/24" ∧
    (EksConfig.ofConfig emptyConfig).cluster_name = "eks-cluster" ∧
    (EksConfig.ofConfig emptyConfig).cluster_version = "1.28" ∧
    (EksConfig.ofConfig emptyConfig).cluster_role_name = "eks-cluster-role" ∧
    (EksConfig.ofConfig emptyConfig).node_group_name = "eks-node-group" ∧
    (EksConfig.ofConfig emptyConfig).node_desired_count = 2 ∧
    (EksConfig.ofConfig emptyConfig).node_min_count = 1 ∧
    (EksConfig.ofConfig emptyConfig).node_max_count = 4 ∧
    (EksConfig.ofConfig emptyConfig).node_instance_type = "t3.medium" ∧
    (EksConfig.ofConfig emptyConfig).node_role_name = "eks-node-role" ∧
    (EksConfig.ofConfig emptyConfig).aws_region = "us-east-1" ∧
    (EksConfig.ofConfig emptyConfig).common_tags =
      [("Environment", "dev"), ("Project", "eks-project"), ("CreatedBy", "Pulumi")] ∧
    (HpaSettings.ofConfig emptyConfig).enable_hpa = true ∧
    (HpaSettings.ofConfig emptyConfig).hpa_min_replicas = 2 ∧
    (HpaSettings.ofConfig emptyConfig).hpa_max_replicas = 10 ∧
    (HpaSettings.ofConfig emptyConfig).hpa_cpu_threshold = 70 ∧
    (HpaSettings.ofConfig emptyConfig).hpa_memory_threshold = 80 ∧
    (HpaSettings.ofConfig emptyConfig).demo_namespace = "default" ∧
    (HpaSettings.ofConfig emptyConfig).demo_app_name = "demo-app" ∧
    (HpaSettings.ofConfig emptyConfig).demo_app_image = "nginx:latest" ∧
    (HpaSettings.ofConfig emptyConfig).demo_app_replicas = 2 ∧
    (HpaSettings.ofConfig emptyConfig).demo_app_port = 80 := by
  obtain ⟨h1, h2, h3, h4, h5, h6, h7, h8, h9, h10, h11, h12, h13, h14, h15, h16, h17, h18,
    h19, h20, h21, h22, h23, h24, h25, h26, h27, h28⟩ :=
    absent_option_falls_back_to_default emptyConfig
  exact ⟨h1 rfl, h2 rfl, h3 rfl, h4 rfl, h5 rfl, h6 rfl, h7 rfl, h8 rfl, h9 rfl, h10 rfl,
    h11 rfl, h12 rfl, h13 rfl, h14 rfl, h15 rfl, h16 rfl, h17 rfl, h18 rfl rfl, h19 rfl,
    h20 rfl, h21 rfl, h22 rfl, h23 rfl, h24 rfl, h25 rfl, h26 rfl, h27 rfl, h28 rfl⟩

/-- C3: a user-supplied falsy value is indistinguishable from an absent one
under the `config.get(...) or default` idiom: for every configuration store
`enable_hpa` evaluates to True (so the autoscaling demo can never be disabled
through configuration and `setup_hpa_infrastructure` always creates its
resources and returns a nonempty mapping), `node_min_count` can never be set
to 0, and supplying False, 0 or the empty string yields the default. -/
theorem falsy_option_indistinguishable_from_absent (c : PulumiConfig) :
    (HpaSettings.ofConfig c).enable_hpa = true ∧
    (EksConfig.ofConfig c).node_min_count ≠ 0 ∧
    (c.getBool "enable_hpa" = some false → (HpaSettings.ofConfig c).enable_hpa = true) ∧
    (c.getInt "node_min_count" = some 0 → (EksConfig.ofConfig c).node_min_count = 1) ∧
    (c.getStr "vpc_name" = some "" → (EksConfig.ofConfig c).vpc_name = "eks-vpc") ∧
    (∀ an : String → String, ∃ r,
      setup_hpa_infrastructure an (HpaSettings.ofConfig c) = .ok r ∧
      r.created ≠ [] ∧ r.outputs ≠ []) := by
  have he : (HpaSettings.ofConfig c).enable_hpa = true := pyOrBool_true _
  refine ⟨he, pyOrInt_ne_zero _ 1 (by decide), fun _ => he, ?_, ?_, ?_⟩
  · intro h
    simp [EksConfig.ofConfig, pyOrInt, h]
  · intro h
    simp [EksConfig.ofConfig, pyOrStr, h]
  · intro an
    exact ⟨_, setup_enabled_eq an _ he, by simp, by simp⟩

/-- Witness for C3: the store that sets `enable_hpa = False`,
`node_min_count = 0` and `vpc_name = ''` still yields the defaults, and the
demo is still set up. -/
theorem falsy_option_indistinguishable_from_absent_witness :
    (HpaSettings.ofConfig falsyConfig).enable_hpa = true ∧
    (EksConfig.ofConfig falsyConfig).node_min_count = 1 ∧
    (EksConfig.ofConfig falsyConfig).vpc_name = "eks-vpc" ∧
    (∃ r, setup_hpa_infrastructure id (HpaSettings.ofConfig falsyConfig) = .ok r ∧
      r.created ≠ [] ∧ r.outputs ≠ []) := by
  obtain ⟨h1, _, _, h4, h5, h6⟩ := falsy_option_indistinguishable_from_absent falsyConfig
  exact ⟨h1, h4 rfl, h5 rfl, h6 id⟩

/-- C5: the HorizontalPodAutoscaler created by `create_hpa` has
`min_replicas` equal to the configured `hpa_min_replicas`, `max_replicas`
equal to `hpa_max_replicas`, exactly two Resource metrics — CPU average
utilization equal to `hpa_cpu_threshold` and memory average utilization
equal to `hpa_memory_threshold` — and its scale target references the
deployment passed in. -/
theorem create_hpa_spec_correct (an : String → String) (s : HpaSettings)
    (d : K8sDeployment) (h : K8sHpa) (hc : create_hpa an s d = some h) :
    h.spec.min_replicas = s.hpa_min_replicas ∧
    h.spec.max_replicas = s.hpa_max_replicas ∧
    h.spec.metrics =
      [⟨"Resource", "cpu", ⟨"Utilization", s.hpa_cpu_threshold⟩⟩,
       ⟨"Resource", "memory", ⟨"Utilization", s.hpa_memory_threshold⟩⟩] ∧
    h.spec.scale_target_ref = ⟨"apps/v1", "Deployment", d.metadata.name⟩ ∧
    h.depends_on = [d.metadata.name] := by
  by_cases he : s.enable_hpa <;> simp [create_hpa, he] at hc
  subst hc
  exact ⟨rfl, rfl, rfl, rfl, rfl⟩

/-- Witness for C5: at default settings the created HPA scales between 2 and
10 replicas on 70% CPU / 80% memory utilization, targeting the demo
deployment. -/
theorem create_hpa_spec_correct_witness :
    demoHpa0.spec.min_replicas = hpaDefaultSettings.hpa_min_replicas ∧
    demoHpa0.spec.max_replicas = hpaDefaultSettings.hpa_max_replicas ∧
    demoHpa0.spec.metrics =
      [⟨"Resource", "cpu", ⟨"Utilization", hpaDefaultSettings.hpa_cpu_threshold⟩⟩,
       ⟨"Resource", "memory", ⟨"Utilization", hpaDefaultSettings.hpa_memory_threshold⟩⟩] ∧
    demoHpa0.spec.scale_target_ref = ⟨"apps/v1", "Deployment", demoDeployment0.metadata.name⟩ ∧
    demoHpa0.depends_on = [demoDeployment0.metadata.name] :=
  create_hpa_spec_correct id hpaDefaultSettings demoDeployment0 demoHpa0 (by decide)

/-- C6: when the autoscaling demo is enabled, `setup_hpa_infrastructure`
creates the metrics-server chart, the demo deployment, its service and the
HPA, and returns exactly the deployment name, service name, HPA name and the
four HPA thresholds; when disabled it creates nothing and returns the empty
mapping. -/
theorem setup_hpa_outputs (an : String → String) (s : HpaSettings) :
    (s.enable_hpa = true →
      setup_hpa_infrastructure an s =
        .ok
          { created :=
              ["metrics-server", s.demo_app_name,
               s.demo_app_name ++ "-service", s.demo_app_name ++ "-hpa"]
            outputs :=
              [("deployment_name", .str (an s.demo_app_name)),
               ("service_name", .str (an (s.demo_app_name ++ "-service"))),
               ("hpa_name", .str (an (s.demo_app_name ++ "-hpa"))),
               ("hpa_min_replicas", .int s.hpa_min_replicas),
               ("hpa_max_replicas", .int s.hpa_max_replicas),
               ("hpa_cpu_threshold", .int s.hpa_cpu_threshold),
               ("hpa_memory_threshold", .int s.hpa_memory_threshold)] }) ∧
    (s.enable_hpa = false →
      setup_hpa_infrastructure an s = .ok { created := [], outputs := [] }) := by
  constructor
  · intro h
    exact setup_enabled_eq an s h
  · intro h
    simp [setup_hpa_infrastructure, h]

/-- Witness for C6: both branches evaluated — the default (enabled) settings
produce the four resources and the seven-entry mapping; the disabled
settings produce nothing. -/
theorem setup_hpa_outputs_witness :
    setup_hpa_infrastructure id hpaDefaultSettings =
      .ok
        { created := ["metrics-server", "demo-app", "demo-app-service", "demo-app-hpa"]
          outputs :=
            [("deployment_name", .str "demo-app"),
             ("service_name", .str "demo-app-service"),
             ("hpa_name", .str "demo-app-hpa"),
             ("hpa_min_replicas", .int 2),
             ("hpa_max_replicas", .int 10),
             ("hpa_cpu_threshold", .int 70),
             ("hpa_memory_threshold", .int 80)] } ∧
    setup_hpa_infrastructure id disabledHpaSettings =
      .ok { created := [], outputs := [] } := by
  constructor
  · have h := (setup_hpa_outputs id hpaDefaultSettings).1 rfl
    simpa using h
  · exact (setup_hpa_outputs id disabledHpaSettings).2 rfl

/-- C9: `setup_hpa_infrastructure` never dereferences a None HPA: on every
settings value it returns a result rather than raising — if the early-return
guard did not fire then `enable_hpa` is true, so `create_hpa` returned a
non-None object and the `hpa.metadata` access is safe. -/
theorem setup_never_dereferences_none (an : String → String) (s : HpaSettings) :
    ∃ r, setup_hpa_infrastructure an s = .ok r := by
  by_cases h : s.enable_hpa
  · exact ⟨_, setup_enabled_eq an s h⟩
  · exact ⟨{ created := [], outputs := [] }, by simp [setup_hpa_infrastructure, h]⟩

/-- C4: the exported output set is a flat mapping (distinct string keys)
covering network identity, cluster endpoint/ARN/version and node-group
identity, and the value exported under `cluster_endpoint` resolves to the
cluster resource's provider-reported `endpoint` attribute. -/
theorem main_exports_shape (cfg : EksConfig) (v : String → String → String) :
    (mainExports cfg).map Prod.fst =
      ["vpc_id", "vpc_cidr", "cluster_name", "cluster_endpoint", "cluster_version",
       "cluster_arn", "node_group_id", "public_subnet_1_id", "public_subnet_2_id",
       "private_subnet_1_id", "private_subnet_2_id"] ∧
    ((mainExports cfg).map Prod.fst).Nodup ∧
    (resolveExports v (mainExports cfg)).lookup "cluster_endpoint" =
      some (v cfg.cluster_name "endpoint") ∧
    (mainExports cfg).lookup "cluster_endpoint" = some ⟨cfg.cluster_name, "endpoint"⟩ := by
  refine ⟨rfl, ?_, rfl, rfl⟩
  rw [show (mainExports cfg).map Prod.fst =
    ["vpc_id", "vpc_cidr", "cluster_name", "cluster_endpoint", "cluster_version",
     "cluster_arn", "node_group_id", "public_subnet_1_id", "public_subnet_2_id",
     "private_subnet_1_id", "private_subnet_2_id"] from rfl]
  decide

/-- C1: the declared network has exactly 2 public and 2 private subnets
across the 2 configured availability zones, one NAT gateway per public
subnet, and exactly 2 private route tables; private route table i has a
single route sending 0.0.0.0/0 to NAT gateway i, NAT gateway i sits in
public subnet i, and private subnet i — associated to private route table
i — lies in the same availability zone (`availability_zones[i-1]`) as
public subnet i, so the route-table-to-NAT-gateway pairing matches the
zone. -/
theorem network_scenario (cfg : EksConfig) :
    (mainDecls cfg).filter (isSubnetOfType "Public") =
      [⟨"eks-public-subnet-1",
         .subnet cfg.vpc_name cfg.public_subnet_1_cidr
           (cfg.availability_zones.getD 0 "") true "Public", []⟩,
       ⟨"eks-public-subnet-2",
         .subnet cfg.vpc_name cfg.public_subnet_2_cidr
           (cfg.availability_zones.getD 1 "") true "Public", []⟩] ∧
    (mainDecls cfg).filter (isSubnetOfType "Private") =
      [⟨"eks-private-subnet-1",
         .subnet cfg.vpc_name cfg.private_subnet_1_cidr
           (cfg.availability_zones.getD 0 "") false "Private", []⟩,
       ⟨"eks-private-subnet-2",
         .subnet cfg.vpc_name cfg.private_subnet_2_cidr
           (cfg.availability_zones.getD 1 "") false "Private", []⟩] ∧
    (mainDecls cfg).filter isNatGateway =
      [⟨"eks-nat-gateway-1", .natGateway "eks-public-subnet-1" "eks-eip-1", ["eks-igw"]⟩,
       ⟨"eks-nat-gateway-2", .natGateway "eks-public-subnet-2" "eks-eip-2", ["eks-igw"]⟩] ∧
    (mainDecls cfg).filter isNatRouteTable =
      [⟨"eks-private-rt-1",
         .routeTable cfg.vpc_name [⟨"0.0.0.0/0", .natGateway "eks-nat-gateway-1"⟩], []⟩,
       ⟨"eks-private-rt-2",
         .routeTable cfg.vpc_name [⟨"0.0.0.0/0", .natGateway "eks-nat-gateway-2"⟩], []⟩] ∧
    (⟨"eks-private-rta-1",
       .routeTableAssociation "eks-private-subnet-1" "eks-private-rt-1", []⟩ : Decl)
      ∈ mainDecls cfg ∧
    (⟨"eks-private-rta-2",
       .routeTableAssociation "eks-private-subnet-2" "eks-private-rt-2", []⟩ : Decl)
      ∈ mainDecls cfg := by
  refine ⟨rfl, rfl, rfl, rfl, ?_, ?_⟩ <;> simp [mainDecls]

/-- C7: each of the two NAT gateway declarations carries an explicit
`depends_on` ordering hint on the internet gateway, even though none of its
configuration properties reads an internet-gateway output — the properties
reference only a public subnet and an Elastic IP. -/
theorem nat_gateways_depend_on_igw (cfg : EksConfig) :
    (mainDecls cfg).filter isNatGateway =
      [⟨"eks-nat-gateway-1", .natGateway "eks-public-subnet-1" "eks-eip-1", ["eks-igw"]⟩,
       ⟨"eks-nat-gateway-2", .natGateway "eks-public-subnet-2" "eks-eip-2", ["eks-igw"]⟩] ∧
    refsOf (.natGateway "eks-public-subnet-1" "eks-eip-1") =
      ["eks-public-subnet-1", "eks-eip-1"] ∧
    refsOf (.natGateway "eks-public-subnet-2" "eks-eip-2") =
      ["eks-public-subnet-2", "eks-eip-2"] ∧
    "eks-igw" ∉ refsOf (.natGateway "eks-public-subnet-1" "eks-eip-1") ∧
    "eks-igw" ∉ refsOf (.natGateway "eks-public-subnet-2" "eks-eip-2") :=
  ⟨rfl, rfl, rfl, by decide, by decide⟩

/-- C8: the dependency graph induced by this program's declarations is
acyclic — every property reference and every explicit `depends_on` edge
points to a resource declared strictly earlier in program order, so (the
declared names being distinct) declaration order witnesses the Desired
State Graph invariant: no reference cycle exists. -/
theorem program_graph_acyclic (cfg : EksConfig) (s : HpaSettings) :
    wellOrdered (mainDecls cfg ++ hpaDecls s) = true ∧
    (((mainDecls cfg ++ hpaDecls s).map Decl.name).Nodup →
      ∀ cyc, ¬ CycleIn (mainDecls cfg ++ hpaDecls s) cyc) := by
  have hwo : wellOrdered (mainDecls cfg ++ hpaDecls s) = true := by
    simp only [wellOrdered, wellOrderedAux, mainDecls, hpaDecls, depsOf, refsOf, memb,
      List.cons_append, List.nil_append, List.all_cons, List.all_nil, List.map_cons,
      List.map_nil, Bool.and_true, Bool.true_and, Bool.or_true, Bool.true_or,
      beq_self_eq_true, Bool.and_self, Bool.or_self]
  refine ⟨hwo, fun hnd cyc hcyc => ?_⟩
  obtain ⟨hne, hstep⟩ := hcyc
  refine no_cycle_of_wellOrderedAux (mainDecls cfg ++ hpaDecls s) [] cyc hwo hnd hne
    (by simp) ?_
  intro n hn
  obtain ⟨m, hm, d, hd, hdname, hmdep⟩ := hstep n hn
  exact ⟨d, hd, hdname, m, hm, hmdep⟩

/-- Witness for C8: at the all-defaults configuration the declared names are
distinct, every dependency points strictly backwards, and no cycle exists. -/
theorem program_graph_acyclic_witness :
    wellOrdered (mainDecls defaultEksConfig ++ hpaDecls hpaDefaultSettings) = true ∧
    ∀ cyc, ¬ CycleIn (mainDecls defaultEksConfig ++ hpaDecls hpaDefaultSettings) cyc :=
  ⟨(program_graph_acyclic defaultEksConfig hpaDefaultSettings).1,
   (program_graph_acyclic defaultEksConfig hpaDefaultSettings).2 (by decide)⟩

/-- C10: for every declaration set containing a reference cycle, the graph
build (the provisioning engine's topological sort, modelled from the spec)
fails with `CyclicDependencyError` and no resource change is applied. -/
theorem cyclic_declarations_fail_graph_build (nodes : List String)
    (edges : List (String × String)) (cyc : List String)
    (hsub : ∀ n ∈ cyc, n ∈ nodes) (hcyc : EdgeCycle edges cyc) :
    ∃ off, topoSort nodes edges = .cyclicDependencyError off ∧
      ∀ plan, appliedChanges (topoSort nodes edges) plan = [] := by
  obtain ⟨hne, hstep⟩ := hcyc
  obtain ⟨off, hoff⟩ := topoDrain_cyclic edges cyc hne hstep nodes.length nodes hsub
  refine ⟨off, hoff, fun plan => ?_⟩
  show appliedChanges (topoDrain nodes.length nodes edges) plan = []
  rw [hoff]
  rfl

/-- Witness for C10: the two-node cycle a → b → a makes the build fail and
apply nothing. -/
theorem cyclic_declarations_fail_graph_build_witness :
    ∃ off, topoSort ["a", "b"] [("a", "b"), ("b", "a")] = .cyclicDependencyError off ∧
      ∀ plan, appliedChanges (topoSort ["a", "b"] [("a", "b"), ("b", "a")]) plan = [] :=
  cyclic_declarations_fail_graph_build ["a", "b"] [("a", "b"), ("b", "a")] ["a", "b"]
    (by decide) ⟨by decide, by decide⟩
